import Mathlib

/-!
Shallow embedding of the status-and-divergence engine of the `a-parallel`
native-git package (src/packages/native-git/src/{status_summary,branch,
diff_summary}.rs).

The repository access layer (gix) is external: every gix call made by the
source is modelled as a field of `RepoState` holding the result of that call, so a
`RepoState` value is one possible behaviour of the access layer.  Rust `u32`
counters are modelled as `Nat` reduced modulo `2 ^ 32` at each addition,
matching release-build wrapping arithmetic.  Fallible operations return
`Except GitError` mirroring the `napi::Result` error paths of the source.
-/

/-- Commit object ids, abstracted. -/
abbrev Oid := Nat

/-- File contents as a list of byte values. -/
abbrev ByteBuf := List Nat

/-- Wrapping 32-bit unsigned addition: models Rust release-mode `u32` `+=`. -/
def wadd (a b : Nat) : Nat := (a + b) % 2 ^ 32

/-- Error taxonomy: one tag per `napi::Error::from_reason` context string in the
source (repository open, HEAD ref, HEAD commit, HEAD tree, status-platform
creation, status iteration, reference listing). -/
inductive GitError where
  | openRepo
  | headRefErr
  | headCommitErr
  | headTreeErr
  | statusCreate
  | statusIter
  | refsErr
  deriving DecidableEq

/-- Sub-kind of a `gix::status::index_worktree::Item::Modification` record,
from `gix_status::index_as_worktree::EntryStatus` / `Change`. -/
inductive EntryStatusKind where
  | conflict
  | removed
  | typeChange
  | modification
  | submoduleModification
  | needsUpdate
  | intentToAdd
  deriving DecidableEq

/-- One record of the index-vs-worktree difference stream
(`gix::status::index_worktree::Item`), carrying the relative path the source
reads from it. -/
inductive RawItem where
  | modification (relaPath : String) (kind : EntryStatusKind)
  | directoryContents (relaPath : String)
  | rewrite (relaPath : String)
  deriving DecidableEq

/-- Abstract state of one repository handle: each field is the result of the
corresponding gix / filesystem call the source performs.  Lookup functions are
keyed by the same strings the source passes (full ref names, paths relative to
the worktree root). -/
structure RepoState where
  /-- Result of repo.head_ref(): the shortened symbolic branch name, or none
  when HEAD is detached or unborn. -/
  headRef : Option String
  /-- Result of repo.head_commit(): none models its error (e.g. unborn HEAD). -/
  headCommit : Option Oid
  /-- Whether head_commit.tree() succeeds. -/
  headTreeOk : Bool
  /-- head_tree.lookup_entry_by_path(p) followed by entry.object(): the blob
  bytes, none when any step fails. -/
  treeLookup : String → Option ByteBuf
  /-- Whether repo.status(...) and into_index_worktree_iter(...) both succeed. -/
  statusOk : Bool
  /-- The index-vs-worktree difference stream; an error element models an
  erroring iterator item. -/
  statusItems : List (Except Unit RawItem)
  /-- find_reference(name) (outer Option) composed with into_fully_peeled_id
  (inner Option). -/
  findRef : String → Option (Option Oid)
  /-- repo.merge_base(a, b). -/
  mergeBase : Oid → Oid → Option Oid
  /-- rev_walk([head_id]).all(): none models failure of all(); elements may
  themselves error. -/
  revWalkAll : Option (List (Except Unit Oid))
  /-- std::fs::read of the file at the given worktree-relative path. -/
  fsRead : String → Option ByteBuf
  /-- std::fs::metadata(..).len() of the file at the given path. -/
  fsMeta : String → Option Nat
  /-- Whether references() and local_branches() succeed. -/
  refsOk : Bool
  /-- The local-branch enumeration: shortened names; an error element models a
  reference that fails to resolve during iteration. -/
  localBranches : List (Except Unit String)

/-- Mirror of the `GitStatusSummary` struct of status_summary.rs. -/
structure GitStatusSummary where
  dirty_file_count : Nat
  unpushed_commit_count : Nat
  has_remote_branch : Bool
  is_merged_into_base : Bool
  lines_added : Nat
  lines_deleted : Nat
  deriving DecidableEq

/-- Mirror of `FileDiffSummaryItem` of diff_summary.rs. -/
structure FileDiffSummaryItem where
  path : String
  status : String
  staged : Bool
  deriving DecidableEq

/-- Mirror of `DiffSummaryResult` of diff_summary.rs. -/
structure DiffSummaryResult where
  files : List FileDiffSummaryItem
  total : Nat
  truncated : Bool
  deriving DecidableEq

/-- Collect the difference stream the way the for loop of the source does: the
first erroring item aborts (the `?` on each entry), otherwise all items are
yielded in order. -/
def sequenceItems : List (Except Unit RawItem) → Except Unit (List RawItem)
  | [] => Except.ok []
  | Except.error e :: _ => Except.error e
  | Except.ok it :: rest =>
    match sequenceItems rest with
    | Except.error e => Except.error e
    | Except.ok its => Except.ok (it :: its)

/-- Binary heuristic of the source: a null byte among the first
min(length, 8192) bytes (`data[..check_len].contains(&0)`). -/
def is_binary (data : ByteBuf) : Bool := (data.take 8192).contains 0

/-- Core of `count_file_lines` after the file has been read (status_summary.rs
lines 25-43): empty means 0; a null byte in the first 8 KiB means 0; otherwise
newline count plus one for a final unterminated line, accumulated in a
wrapping u32 counter. -/
def count_file_lines_bytes (data : ByteBuf) : Nat :=
  if data = [] then 0
  else if is_binary data then 0
  else
    let n := data.foldl (fun n b => if b = 10 then wadd n 1 else n) 0
    match data.getLast? with
    | some b => if b = 10 then n else wadd n 1
    | none => n

/-- `count_file_lines`: reads the file at the given path; a failed read
yields 0 (status_summary.rs lines 20-24). -/
def count_file_lines (repo : RepoState) (p : String) : Nat :=
  match repo.fsRead p with
  | none => 0
  | some data => count_file_lines_bytes data

/-- Modelled from the spec: the line tokenization used by the external
imara-diff crate (`gix::diff::blob::intern::InternedInput` over byte slices),
which is not part of this repository.  Lines are the diff tokens (§4.1); each
token keeps its terminating newline byte. -/
def splitLinesGo (cur : List Nat) : List Nat → List (List Nat)
  | [] => if cur = [] then [] else [cur.reverse]
  | 10 :: rest => (cur.reverse ++ [10]) :: splitLinesGo [] rest
  | b :: rest => splitLinesGo (b :: cur) rest

/-- Split a byte buffer into line tokens. -/
def splitLines (data : ByteBuf) : List (List Nat) := splitLinesGo [] data

/-- Modelled from the spec: length of a longest common subsequence, the core
of the histogram-style LCS text-diff of §4.1 (implemented by the external
imara-diff crate, absent from this repository).  Fuel makes the recursion
structural; `lcsLen` supplies enough fuel. -/
def lcsLenFuel (fuel : Nat) (xs ys : List (List Nat)) : Nat :=
  match fuel, xs, ys with
  | 0, _, _ => 0
  | _ + 1, [], _ => 0
  | _ + 1, _, [] => 0
  | f + 1, a :: as, b :: bs =>
    if a = b then 1 + lcsLenFuel f as bs
    else max (lcsLenFuel f (a :: as) bs) (lcsLenFuel f as (b :: bs))

/-- Longest-common-subsequence length of two token streams. -/
def lcsLen (xs ys : List (List Nat)) : Nat := lcsLenFuel (xs.length + ys.length) xs ys

/-- Modelled from the spec: the change spans reported by the §4.1 text diff as
(before-length, after-length) pairs.  Every token outside a longest common
subsequence is reported in a changed span (one unit span per token; only the
accumulated totals are consumed by the sink of the source).  Fuel makes the
recursion structural; `diffChanges` supplies enough fuel. -/
def diffChangesFuel (fuel : Nat) (xs ys : List (List Nat)) : List (Nat × Nat) :=
  match fuel, xs, ys with
  | 0, _, _ => []
  | _ + 1, [], [] => []
  | _ + 1, [], bs => [(0, bs.length)]
  | _ + 1, as, [] => [(as.length, 0)]
  | f + 1, a :: as, b :: bs =>
    if a = b then diffChangesFuel f as bs
    else if lcsLen as (b :: bs) ≥ lcsLen (a :: as) bs then
      (1, 0) :: diffChangesFuel f as (b :: bs)
    else
      (0, 1) :: diffChangesFuel f (a :: as) bs

/-- Change spans of the modelled text diff. -/
def diffChanges (xs ys : List (List Nat)) : List (Nat × Nat) :=
  diffChangesFuel (xs.length + ys.length) xs ys

/-- The `LineCounter` sink (status_summary.rs lines 85-103): per change span,
`deleted += before`-length and `added += after`-length in wrapping u32
counters; `finish` returns `(added, deleted)`. -/
def lineCounterRun (spans : List (Nat × Nat)) : Nat × Nat :=
  let acc := spans.foldl (fun acc sp => (wadd acc.1 sp.2, wadd acc.2 sp.1)) (0, 0)
  acc

/-- The diff part of `count_lines_for_entry` (status_summary.rs lines 69-83):
if either side is binary return (0, 0), otherwise run the line diff and count
via the sink.  This is `diffLineCounts` of spec §4.1. -/
def diff_line_counts (oldBytes newBytes : ByteBuf) : Nat × Nat :=
  if is_binary oldBytes || is_binary newBytes then (0, 0)
  else lineCounterRun (diffChanges (splitLines oldBytes) (splitLines newBytes))

/-- `count_lines_for_entry` (status_summary.rs lines 48-83): the old side is
the blob of the path in the HEAD tree, the new side the on-disk bytes; either
lookup failing degrades to an empty buffer (`unwrap_or(b"")`). -/
def count_lines_for_entry (repo : RepoState) (relPath : String) : Nat × Nat :=
  let oldBytes := (repo.treeLookup relPath).getD []
  let newBytes := (repo.fsRead relPath).getD []
  diff_line_counts oldBytes newBytes

/-- Relative paths of `Modification` items, in stream order
(status_summary.rs lines 158-160). -/
def modified_paths (items : List RawItem) : List String :=
  items.filterMap fun it =>
    match it with
    | RawItem.modification p _ => some p
    | _ => none

/-- Relative paths of `DirectoryContents` (untracked) items, in stream order
(status_summary.rs lines 161-165). -/
def untracked_paths (items : List RawItem) : List String :=
  items.filterMap fun it =>
    match it with
    | RawItem.directoryContents p => some p
    | _ => none

/-- The tracked-modified counting loop (status_summary.rs lines 172-177):
accumulate per-file added/deleted counts into wrapping u32 totals. -/
def tally_modified (repo : RepoState) (paths : List String) : Nat × Nat :=
  paths.foldl
    (fun acc p =>
      let c := count_lines_for_entry repo p
      (wadd acc.1 c.1, wadd acc.2 c.2))
    (0, 0)

def MAX_UNTRACKED_TO_COUNT : Nat := 200

def MAX_UNTRACKED_FILE_SIZE : Nat := 512 * 1024

/-- The metadata gate of the untracked loop (status_summary.rs lines 184-190):
skip when metadata fails, or the size is zero or above the 512 KiB cap. -/
def untracked_gate (repo : RepoState) (p : String) : Bool :=
  match repo.fsMeta p with
  | some len => !(len == 0 || len > MAX_UNTRACKED_FILE_SIZE)
  | none => false

/-- The untracked counting loop (status_summary.rs lines 180-192): only the
first 200 untracked paths are examined; each passing the gate adds its
`count_file_lines` to `lines_added` (wrapping u32). -/
def tally_untracked (repo : RepoState) (la : Nat) (paths : List String) : Nat :=
  (paths.take MAX_UNTRACKED_TO_COUNT).foldl
    (fun acc p => if untracked_gate repo p then wadd acc (count_file_lines repo p) else acc)
    la

/-- The ahead-count walk (status_summary.rs lines 223-233 and 242-252): skip
erroring walk items, stop without counting at the merge-base id, count every
other commit in a wrapping u32 counter. -/
def count_walk_until (items : List (Except Unit Oid)) (stopId : Oid) : Nat :=
  match items with
  | [] => 0
  | Except.error _ :: rest => count_walk_until rest stopId
  | Except.ok id :: rest =>
    if id = stopId then 0 else wadd (count_walk_until rest stopId) 1

/-- Shared shape of the two unpushed-count branches: given a target tip, find
the merge-base with HEAD, then walk from HEAD counting until the merge-base;
any failure yields 0. -/
def unpushed_from (repo : RepoState) (headId targetId : Oid) : Nat :=
  match repo.mergeBase headId targetId with
  | some baseId =>
    match repo.revWalkAll with
    | some items => count_walk_until items baseId
    | none => 0
  | none => 0

/-- The unpushed-commit computation (status_summary.rs lines 210-256): if the
remote-tracking ref exists use it (re-finding and peeling it, failure giving
0); otherwise if a base branch was supplied use refs/heads/(base); otherwise
0. -/
def compute_unpushed (repo : RepoState) (branch : String) (baseBranch : Option String)
    (headId : Oid) : Nat :=
  if (repo.findRef ("refs/remotes/origin/" ++ branch)).isSome then
    match repo.findRef ("refs/remotes/origin/" ++ branch) with
    | some (some upstreamId) => unpushed_from repo headId upstreamId
    | _ => 0
  else
    match baseBranch with
    | some b =>
      match repo.findRef ("refs/heads/" ++ b) with
      | some (some baseId) => unpushed_from repo headId baseId
      | _ => 0
    | none => 0

/-- The merged-into-base check (status_summary.rs lines 258-278): only runs
when a base branch was supplied; resolve refs/heads/(base) and
refs/heads/(branch) in the project repository handle, compute their
merge-base, and report whether it differs from the branch tip; every failure
leaves the flag false. -/
def compute_is_merged (projectRepo : Option RepoState) (baseBranch : Option String)
    (branch : String) : Bool :=
  match baseBranch with
  | none => false
  | some b =>
    match projectRepo with
    | none => false
    | some pr =>
      match pr.findRef ("refs/heads/" ++ b) with
      | some (some baseId) =>
        match pr.findRef ("refs/heads/" ++ branch) with
        | some (some branchId) =>
          match pr.mergeBase baseId branchId with
          | some mbId => decide (mbId ≠ branchId)
          | none => false
        | _ => false
      | _ => false

/-- `get_status_summary` (status_summary.rs lines 105-288).  `projectRepo` is
the result of opening project_cwd.unwrap_or(worktree_cwd); none models that
open failing. -/
def get_status_summary (repo : RepoState) (projectRepo : Option RepoState)
    (baseBranch : Option String) : Except GitError GitStatusSummary :=
  match repo.headCommit with
  | none => Except.error GitError.headCommitErr
  | some headId =>
    if !repo.headTreeOk then Except.error GitError.headTreeErr
    else if !repo.statusOk then Except.error GitError.statusCreate
    else
      match sequenceItems repo.statusItems with
      | Except.error _ => Except.error GitError.statusIter
      | Except.ok items =>
        let dirty := items.length % 2 ^ 32
        let t := tally_modified repo (modified_paths items)
        let la := tally_untracked repo t.1 (untracked_paths items)
        match repo.headRef with
        | none =>
          Except.ok
            { dirty_file_count := dirty, unpushed_commit_count := 0,
              has_remote_branch := false, is_merged_into_base := false,
              lines_added := la, lines_deleted := t.2 }
        | some branch =>
          Except.ok
            { dirty_file_count := dirty,
              unpushed_commit_count := compute_unpushed repo branch baseBranch headId,
              has_remote_branch := (repo.findRef ("refs/remotes/origin/" ++ branch)).isSome,
              is_merged_into_base := compute_is_merged projectRepo baseBranch branch,
              lines_added := la, lines_deleted := t.2 }

/-- `get_current_branch` (branch.rs lines 1-11). -/
def get_current_branch (repo : RepoState) : Except GitError (Option String) :=
  Except.ok repo.headRef

/-- Drop a literal character list from the front of another, or fail. -/
def dropPre : List Char → List Char → Option (List Char)
  | [], s => some s
  | _, [] => none
  | a :: ps, b :: ss => if a = b then dropPre ps ss else none

/-- gix `FullNameRef::shorten` for the categories the source touches: strips a
well-known leading ref namespace. -/
def shorten_ref_name (name : String) : String :=
  match dropPre "refs/heads/".data name.data with
  | some r => String.mk r
  | none =>
    match dropPre "refs/tags/".data name.data with
    | some r => String.mk r
    | none =>
      match dropPre "refs/remotes/".data name.data with
      | some r => String.mk r
      | none => name

/-- The origin-stripping step of branch.rs (`strip_prefix("origin/")` with
fallback to the unstripped name). -/
def strip_origin (name : String) : String :=
  match dropPre "origin/".data name.data with
  | some r => String.mk r
  | none => name

/-- `get_default_branch` (branch.rs lines 75-117).  When
refs/remotes/origin/HEAD is found, the source shortens the own name
of that reference (the looked-up name itself, never its symref target) and strips
"origin/". -/
def get_default_branch (repo : RepoState) : Except GitError (Option String) :=
  if (repo.findRef "refs/remotes/origin/HEAD").isSome then
    Except.ok (some (strip_origin (shorten_ref_name "refs/remotes/origin/HEAD")))
  else if !repo.refsOk then Except.error GitError.refsErr
  else
    let names := repo.localBranches.filterMap fun e =>
      match e with
      | Except.ok n => some n
      | Except.error _ => none
    if names.contains "main" then Except.ok (some "main")
    else if names.contains "master" then Except.ok (some "master")
    else if names.contains "develop" then Except.ok (some "develop")
    else Except.ok names.head?

/-- Substring test: Rust `str::contains` for plain patterns. -/
def str_contains (s pat : String) : Bool :=
  s.data.tails.any fun t => List.isPrefixOf pat.data t

/-- `matches_any_pattern` (diff_summary.rs lines 20-27). -/
def matches_any_pattern (path : String) (patterns : List String) : Bool :=
  patterns.any fun pat => str_contains path pat

/-- The status-string classification of diff_summary.rs lines 62-72. -/
def classify_status (k : EntryStatusKind) : String :=
  match k with
  | EntryStatusKind.conflict => "modified"
  | EntryStatusKind.removed => "deleted"
  | EntryStatusKind.typeChange => "modified"
  | EntryStatusKind.modification => "modified"
  | EntryStatusKind.submoduleModification => "modified"
  | EntryStatusKind.needsUpdate => "modified"
  | EntryStatusKind.intentToAdd => "added"

/-- Path and status string of one stream item (diff_summary.rs lines 57-83). -/
def classify_item (it : RawItem) : String × String :=
  match it with
  | RawItem.modification p k => (p, classify_status k)
  | RawItem.directoryContents p => (p, "added")
  | RawItem.rewrite p => (p, "renamed")

/-- The kept entries of `get_diff_summary` before truncation: classification,
then exclusion by substring (diff_summary.rs lines 53-94). -/
def diff_kept_files (items : List RawItem) (exclude : List String) : List FileDiffSummaryItem :=
  items.filterMap fun it =>
    let ps := classify_item it
    if !exclude.isEmpty && matches_any_pattern ps.1 exclude then none
    else some { path := ps.1, status := ps.2, staged := false }

/-- `get_diff_summary` (diff_summary.rs lines 29-107).  `total` is the
pre-truncation length cast to u32 (`as u32`, a wrapping cast); `truncated`
compares the exact pre-truncation length with `max`. -/
def get_diff_summary (repo : RepoState) (excludePatterns : Option (List String))
    (maxFiles : Option Nat) : Except GitError DiffSummaryResult :=
  let exclude := excludePatterns.getD []
  let max := maxFiles.getD 0
  if !repo.statusOk then Except.error GitError.statusCreate
  else
    match sequenceItems repo.statusItems with
    | Except.error _ => Except.error GitError.statusIter
    | Except.ok items =>
      let all_files := diff_kept_files items exclude
      let total := all_files.length % 2 ^ 32
      let truncated := decide (0 < max) && decide (max < all_files.length)
      let files := if truncated then all_files.take max else all_files
      Except.ok { files := files, total := total, truncated := truncated }

/-- Claim C3 reading of countFileLines, with exact (unbounded) counting: 0
when empty, 0 on a null byte within the first min(length, 8192) bytes, else
the number of newline bytes plus 1 when the buffer does not end in one. -/
def spec_count_file_lines (b : ByteBuf) : Nat :=
  if b = [] then 0
  else if (b.take (min b.length 8192)).contains 0 then 0
  else b.count 10 + (if b.getLast? = some 10 then 0 else 1)

/-- Claim C1 reading of the ancestry walk: visit commits in traversal order
(erroring walk items are not commits) and count, exactly, those before the
merge-base id, which is excluded and stops the walk. -/
def spec_walk_count (items : List (Except Unit Oid)) (stopId : Oid) : Nat :=
  ((items.filterMap fun e => e.toOption).takeWhile fun id => decide (id ≠ stopId)).length

/-- Claim C1 reading of the unpushed-commit count: prefer the remote
tracking ref of the branch, else (when supplied) the local base branch; a
missing or unresolvable reference, a missing merge-base, or an unusable walk
gives 0; otherwise exactly count the walked commits before the merge-base. -/
def spec_unpushed_count (repo : RepoState) (branch : String) (baseBranch : Option String)
    (headId : Oid) : Nat :=
  let target : Option Oid :=
    match repo.findRef ("refs/remotes/origin/" ++ branch) with
    | some peeled => peeled
    | none =>
      match baseBranch with
      | some b =>
        match repo.findRef ("refs/heads/" ++ b) with
        | some peeled => peeled
        | none => none
      | none => none
  match target with
  | none => 0
  | some t =>
    match repo.mergeBase headId t with
    | none => 0
    | some mb =>
      match repo.revWalkAll with
      | none => 0
      | some items => spec_walk_count items mb

/-- Claim C2 reading of the merged-into-base flag: when both refs/heads
tips resolve in the project repository handle and their merge-base exists,
the flag is true exactly when the merge-base differs from the branch tip;
every failure (including a failed project-repository open) gives false. -/
def spec_is_merged (projectRepo : Option RepoState) (base branch : String) : Bool :=
  match projectRepo with
  | none => false
  | some pr =>
    match pr.findRef ("refs/heads/" ++ base), pr.findRef ("refs/heads/" ++ branch) with
    | some (some baseId), some (some branchId) =>
      match pr.mergeBase baseId branchId with
      | some mb => decide (mb ≠ branchId)
      | none => false
    | _, _ => false

/-- A repository state whose access layer reports nothing: detached-or-unborn
HEAD, no refs, empty status stream.  Concrete inputs below override fields. -/
def baseRepo : RepoState where
  headRef := none
  headCommit := none
  headTreeOk := true
  treeLookup := fun _ => none
  statusOk := true
  statusItems := []
  findRef := fun _ => none
  mergeBase := fun _ _ => none
  revWalkAll := none
  fsRead := fun _ => none
  fsMeta := fun _ => none
  refsOk := true
  localBranches := []

/-- Branch "b" with a remote-tracking ref at commit 7; HEAD at commit 3; the
walk visits 3, then the merge-base 2, then 9. -/
def c1Repo : RepoState :=
  { baseRepo with
    headRef := some "b"
    headCommit := some 3
    findRef := fun n => if n = "refs/remotes/origin/b" then some (some 7) else none
    mergeBase := fun _ _ => some 2
    revWalkAll := some [Except.ok 3, Except.ok 2, Except.ok 9] }

/-- A walk of 2 ^ 32 commits none of which is the merge-base id 99: the u32
ahead counter wraps to 0. -/
def c1BigRepo : RepoState :=
  { baseRepo with
    headRef := some "b"
    headCommit := some 1
    findRef := fun n => if n = "refs/remotes/origin/b" then some (some 2) else none
    mergeBase := fun _ _ => some 99
    revWalkAll := some (List.replicate (2 ^ 32) (Except.ok 1)) }

/-- Worktree repository on branch "feat" for the C2 witness. -/
def c2Repo : RepoState :=
  { baseRepo with
    headRef := some "feat"
    headCommit := some 3 }

/-- Project repository handle for the C2 witness: base tip 5, branch tip 3,
merge-base 4 differing from the branch tip. -/
def c2Proj : RepoState :=
  { baseRepo with
    findRef := fun n =>
      if n = "refs/heads/base" then some (some 5)
      else if n = "refs/heads/feat" then some (some 3)
      else none
    mergeBase := fun a b => if a = 5 && b = 3 then some 4 else none }

/-- Two untracked entries for the C5 witness. -/
def c5Repo : RepoState :=
  { baseRepo with
    statusItems := [Except.ok (RawItem.directoryContents "a"),
                    Except.ok (RawItem.directoryContents "b")] }

/-- The diff summary produced for `c5Repo` with maxFiles = 1. -/
def c5Result : DiffSummaryResult :=
  { files := [{ path := "a", status := "added", staged := false }],
    total := 2, truncated := true }

/-- A stream of 2 ^ 32 untracked entries: the u32 total wraps to 0 while the
files list keeps all entries. -/
def c5BigRepo : RepoState :=
  { baseRepo with
    statusItems := List.replicate (2 ^ 32) (Except.ok (RawItem.directoryContents "a")) }

/-- Detached HEAD at commit 1 with one tracked modification: file "f" went
from one line to two. -/
def c6Repo : RepoState :=
  { baseRepo with
    headRef := none
    headCommit := some 1
    treeLookup := fun p => if p = "f" then some [97, 10] else none
    fsRead := fun p => if p = "f" then some [97, 10, 98, 10] else none
    statusItems := [Except.ok (RawItem.modification "f" EntryStatusKind.modification)] }

/-- A tracked modification whose HEAD blob lookup fails while the disk read
yields one line. -/
def c7Repo : RepoState :=
  { baseRepo with
    headRef := some "m"
    headCommit := some 1
    treeLookup := fun _ => none
    fsRead := fun p => if p = "f" then some [120, 10] else none
    statusItems := [Except.ok (RawItem.modification "f" EntryStatusKind.modification)] }

/-- A status stream yielding an error item. -/
def c7ErrRepo : RepoState :=
  { baseRepo with
    headRef := some "m"
    headCommit := some 1
    statusItems := [Except.error ()] }

/-- A repository where refs/remotes/origin/HEAD exists (pointing, in the real
store, at refs/remotes/origin/main) and local branches "feature" and "main"
exist, "feature" enumerated first. -/
def c8Repo : RepoState :=
  { baseRepo with
    findRef := fun n => if n = "refs/remotes/origin/HEAD" then some (some 1) else none
    localBranches := [Except.ok "feature", Except.ok "main"] }

/-- Detached HEAD with two tracked modifications, each adding 2 ^ 31 lines
(empty HEAD blob, 2 ^ 31 newline bytes on disk): the exact sum of added lines
is 2 ^ 32, and the u32 total wraps to 0. -/
def c9Repo : RepoState :=
  { baseRepo with
    headRef := none
    headCommit := some 1
    treeLookup := fun _ => none
    fsRead := fun _ => some (List.replicate (2 ^ 31) 10)
    statusItems := [Except.ok (RawItem.modification "f" EntryStatusKind.modification),
                    Except.ok (RawItem.modification "g" EntryStatusKind.modification)] }

/-- An unborn-HEAD repository: head_commit fails; the status stream would
even error if it were consulted. -/
def c10Repo : RepoState :=
  { baseRepo with
    headRef := some "main"
    headCommit := none
    statusItems := [Except.error ()] }

theorem wadd_lt (a b : Nat) : wadd a b < 2 ^ 32 :=
  Nat.mod_lt _ (by norm_num)

theorem foldl_count_ten (l : List Nat) : ∀ a : Nat, a < 2 ^ 32 →
    l.foldl (fun n b => if b = 10 then wadd n 1 else n) a = (a + l.count 10) % 2 ^ 32 := by
  induction l with
  | nil => intro a ha; simp; omega
  | cons x xs ih =>
    intro a ha
    by_cases hx : x = 10
    · subst hx
      have h1 : List.foldl (fun n b => if b = 10 then wadd n 1 else n) a (10 :: xs) =
          List.foldl (fun n b => if b = 10 then wadd n 1 else n) (wadd a 1) xs := by
        simp
      rw [h1, ih (wadd a 1) (wadd_lt a 1)]
      have h2 : (10 :: xs).count 10 = xs.count 10 + 1 := by simp [List.count_cons]
      rw [h2]
      simp only [wadd]
      omega
    · have h1 : List.foldl (fun n b => if b = 10 then wadd n 1 else n) a (x :: xs) =
          List.foldl (fun n b => if b = 10 then wadd n 1 else n) a xs := by
        simp [hx]
      have h2 : (x :: xs).count 10 = xs.count 10 := by simp [List.count_cons, hx]
      rw [h1, h2, ih a ha]

theorem foldl_wadd_pair (f : String → Nat × Nat) (paths : List String) : ∀ a b : Nat,
    a < 2 ^ 32 → b < 2 ^ 32 →
    paths.foldl (fun acc p => (wadd acc.1 (f p).1, wadd acc.2 (f p).2)) (a, b) =
      ((a + (paths.map fun p => (f p).1).sum) % 2 ^ 32,
       (b + (paths.map fun p => (f p).2).sum) % 2 ^ 32) := by
  induction paths with
  | nil => intro a b ha hb; simp; omega
  | cons p ps ih =>
    intro a b ha hb
    simp only [List.foldl_cons]
    rw [ih (wadd a (f p).1) (wadd b (f p).2) (wadd_lt _ _) (wadd_lt _ _)]
    simp only [List.map_cons, List.sum_cons, Prod.mk.injEq, wadd]
    constructor <;> omega

theorem foldl_wadd_gated (g : String → Bool) (f : String → Nat) (paths : List String) :
    ∀ a : Nat, a < 2 ^ 32 →
    paths.foldl (fun acc p => if g p then wadd acc (f p) else acc) a =
      (a + (paths.map fun p => if g p then f p else 0).sum) % 2 ^ 32 := by
  induction paths with
  | nil => intro a ha; simp; omega
  | cons p ps ih =>
    intro a ha
    simp only [List.foldl_cons, List.map_cons, List.sum_cons]
    by_cases hg : g p
    · rw [if_pos hg, if_pos hg, ih (wadd a (f p)) (wadd_lt _ _)]
      simp only [wadd]
      omega
    · rw [if_neg hg, if_neg hg, ih a ha]; simp

theorem count_walk_until_eq (stopId : Oid) (items : List (Except Unit Oid)) :
    count_walk_until items stopId = spec_walk_count items stopId % 2 ^ 32 := by
  induction items with
  | nil => simp [count_walk_until, spec_walk_count]
  | cons e rest ih =>
    cases e with
    | error u => simpa [count_walk_until, spec_walk_count, Except.toOption] using ih
    | ok id =>
      by_cases hid : id = stopId
      · subst hid
        simp [count_walk_until, spec_walk_count, Except.toOption, List.takeWhile_cons]
      · simp only [count_walk_until, if_neg hid]
        rw [ih]
        have hd : (decide (id ≠ stopId)) = true := by simp [hid]
        simp only [spec_walk_count, List.filterMap_cons, Except.toOption,
          List.takeWhile_cons, hd, if_true, List.length_cons, wadd]
        omega

theorem sequenceItems_replicate_ok (x : RawItem) : ∀ n : Nat,
    sequenceItems (List.replicate n (Except.ok x)) = Except.ok (List.replicate n x) := by
  intro n
  induction n with
  | zero => rfl
  | succ k ih => simp [List.replicate_succ, sequenceItems, ih]

theorem filterMap_replicate_some {α β : Type} (f : α → Option β) (a : α) (b : β)
    (h : f a = some b) : ∀ n : Nat, (List.replicate n a).filterMap f = List.replicate n b := by
  intro n
  induction n with
  | zero => rfl
  | succ k ih => simp [List.replicate_succ, List.filterMap_cons, h, ih]

theorem takeWhile_replicate_true {α : Type} (p : α → Bool) (a : α) (h : p a = true) :
    ∀ n : Nat, (List.replicate n a).takeWhile p = List.replicate n a := by
  intro n
  induction n with
  | zero => rfl
  | succ k ih => simp [List.replicate_succ, List.takeWhile_cons, h, ih]

theorem getLast_replicate_succ (a : Nat) (k : Nat) :
    (List.replicate (k + 1) a).getLast? = some a := by
  induction k with
  | zero => rfl
  | succ j ih =>
    have h : List.replicate (j + 1 + 1) a = a :: List.replicate (j + 1) a :=
      List.replicate_succ a (j + 1)
    have h2 : List.replicate (j + 1) a = a :: List.replicate j a := List.replicate_succ a j
    rw [h, h2, List.getLast?_cons_cons, ← h2, ih]

theorem contains_replicate_ten (k : Nat) : (List.replicate k (10 : Nat)).contains 0 = false := by
  induction k with
  | zero => rfl
  | succ j ih => simp [List.replicate_succ, List.contains_cons, ih]

theorem is_binary_replicate_ten (k : Nat) : is_binary (List.replicate k (10 : Nat)) = false := by
  unfold is_binary
  rw [List.take_replicate]
  exact contains_replicate_ten _

theorem splitLines_replicate_ten (k : Nat) :
    splitLines (List.replicate k (10 : Nat)) = List.replicate k [10] := by
  unfold splitLines
  induction k with
  | zero => rfl
  | succ j ih => simp [List.replicate_succ, splitLinesGo, ih]

theorem diffChangesFuel_self (fuel : Nat) : ∀ l : List (List Nat),
    diffChangesFuel fuel l l = [] := by
  induction fuel with
  | zero => intro l; rfl
  | succ f ih =>
    intro l
    cases l with
    | nil => rfl
    | cons a as => simp [diffChangesFuel, ih]

theorem diffChanges_self (l : List (List Nat)) : diffChanges l l = [] :=
  diffChangesFuel_self _ l

theorem diffChanges_nil_cons (b : List Nat) (bs : List (List Nat)) :
    diffChanges [] (b :: bs) = [(0, bs.length + 1)] := by
  simp [diffChanges, diffChangesFuel]

theorem get_status_summary_branch (repo : RepoState) (proj : Option RepoState)
    (base : Option String) (branch : String) (hid : Oid) (items : List RawItem)
    (h1 : repo.headCommit = some hid) (h2 : repo.headTreeOk = true)
    (h3 : repo.statusOk = true) (h4 : sequenceItems repo.statusItems = Except.ok items)
    (h5 : repo.headRef = some branch) :
    get_status_summary repo proj base = Except.ok
      { dirty_file_count := items.length % 2 ^ 32,
        unpushed_commit_count := compute_unpushed repo branch base hid,
        has_remote_branch := (repo.findRef ("refs/remotes/origin/" ++ branch)).isSome,
        is_merged_into_base := compute_is_merged proj base branch,
        lines_added :=
          tally_untracked repo (tally_modified repo (modified_paths items)).1 (untracked_paths items),
        lines_deleted := (tally_modified repo (modified_paths items)).2 } := by
  unfold get_status_summary
  rw [h1, h2, h3, h4, h5]
  simp

theorem compute_unpushed_eq (repo : RepoState) (branch : String) (base : Option String)
    (hid : Oid) :
    compute_unpushed repo branch base hid = spec_unpushed_count repo branch base hid % 2 ^ 32 := by
  have hfrom : ∀ t : Oid, unpushed_from repo hid t =
      (match repo.mergeBase hid t with
       | none => 0
       | some mb =>
         match repo.revWalkAll with
         | none => 0
         | some its => spec_walk_count its mb) % 2 ^ 32 := by
    intro t
    unfold unpushed_from
    cases hmb : repo.mergeBase hid t with
    | none => rfl
    | some mb =>
      cases hw : repo.revWalkAll with
      | none => rfl
      | some its => exact count_walk_until_eq mb its
  unfold compute_unpushed spec_unpushed_count
  cases h : repo.findRef ("refs/remotes/origin/" ++ branch) with
  | some po =>
    cases po with
    | some u => simp only [h]; simpa using hfrom u
    | none => simp [h]
  | none =>
    cases base with
    | none => simp [h]
    | some b =>
      cases h2 : repo.findRef ("refs/heads/" ++ b) with
      | some po2 =>
        cases po2 with
        | some t => simp only [h, h2]; simpa using hfrom t
        | none => simp [h, h2]
      | none => simp [h, h2]

theorem get_status_summary_detached (repo : RepoState) (proj : Option RepoState)
    (base : Option String) (hid : Oid) (items : List RawItem)
    (h1 : repo.headCommit = some hid) (h2 : repo.headTreeOk = true)
    (h3 : repo.statusOk = true) (h4 : sequenceItems repo.statusItems = Except.ok items)
    (h5 : repo.headRef = none) :
    get_status_summary repo proj base = Except.ok
      { dirty_file_count := items.length % 2 ^ 32,
        unpushed_commit_count := 0,
        has_remote_branch := false,
        is_merged_into_base := false,
        lines_added :=
          tally_untracked repo (tally_modified repo (modified_paths items)).1 (untracked_paths items),
        lines_deleted := (tally_modified repo (modified_paths items)).2 } := by
  unfold get_status_summary
  rw [h1, h2, h3, h4, h5]
  simp

/-- C4: for every byte buffer x, diffLineCounts(x, x) = (0, 0) — comparing a
buffer with itself reports zero added and zero deleted lines, whether x is
binary or text. -/
theorem c4_diff_identity (x : ByteBuf) : diff_line_counts x x = (0, 0) := by
  unfold diff_line_counts
  by_cases hb : is_binary x
  · simp [hb]
  · simp [hb, diffChanges_self, lineCounterRun]

/-- C10: when HEAD points at an unborn branch (no commit yet), obtaining the
HEAD commit fails, so getStatusSummary returns that typed failure before the
difference stream is ever consulted — for every stream, even an erroring one,
and regardless of the detached-HEAD short-circuit. -/
theorem c10_unborn_failure (repo : RepoState) (proj : Option RepoState) (base : Option String)
    (h : repo.headCommit = none) :
    get_status_summary repo proj base = Except.error GitError.headCommitErr := by
  unfold get_status_summary
  rw [h]

theorem c10_witness :
    c10Repo.headCommit = none ∧
    get_status_summary c10Repo none none = Except.error GitError.headCommitErr :=
  ⟨rfl, c10_unborn_failure c10Repo none none rfl⟩

/-- C6: with HEAD detached, getCurrentBranch returns none, and
getStatusSummary returns unpushedCommitCount 0, hasRemoteBranch false and
isMergedIntoBase false while still reporting the dirty-file count and line
tallies computed from the difference enumeration. -/
theorem c6_detached (repo : RepoState) (proj : Option RepoState) (base : Option String)
    (hid : Oid) (items : List RawItem)
    (h1 : repo.headCommit = some hid) (h2 : repo.headTreeOk = true)
    (h3 : repo.statusOk = true) (h4 : sequenceItems repo.statusItems = Except.ok items)
    (h5 : repo.headRef = none) :
    get_current_branch repo = Except.ok none ∧
    get_status_summary repo proj base = Except.ok
      { dirty_file_count := items.length % 2 ^ 32,
        unpushed_commit_count := 0,
        has_remote_branch := false,
        is_merged_into_base := false,
        lines_added :=
          tally_untracked repo (tally_modified repo (modified_paths items)).1 (untracked_paths items),
        lines_deleted := (tally_modified repo (modified_paths items)).2 } := by
  refine ⟨?_, get_status_summary_detached repo proj base hid items h1 h2 h3 h4 h5⟩
  unfold get_current_branch
  rw [h5]

theorem c6_witness :
    get_current_branch c6Repo = Except.ok none ∧
    get_status_summary c6Repo none none = Except.ok
      { dirty_file_count := 1, unpushed_commit_count := 0, has_remote_branch := false,
        is_merged_into_base := false, lines_added := 1, lines_deleted := 0 } := by
  have h := c6_detached c6Repo none none 1
    [RawItem.modification "f" EntryStatusKind.modification] rfl rfl rfl rfl rfl
  exact ⟨h.1, by rw [h.2]; rfl⟩

/-- C7: a failed blob lookup in the HEAD tree or a failed disk read is treated
as an empty comparison side and never aborts the summary, which still
succeeds whenever the difference stream yields no error; an error yielded by
the stream itself fails the whole call with the status-iteration error. -/
theorem c7_error_policy (repo : RepoState) (proj : Option RepoState) (base : Option String)
    (p : String) :
    (repo.treeLookup p = none →
      count_lines_for_entry repo p = diff_line_counts [] ((repo.fsRead p).getD [])) ∧
    (repo.fsRead p = none →
      count_lines_for_entry repo p = diff_line_counts ((repo.treeLookup p).getD []) []) ∧
    (repo.headCommit.isSome = true → repo.headTreeOk = true → repo.statusOk = true →
      (sequenceItems repo.statusItems).isOk = true →
      (get_status_summary repo proj base).isOk = true) ∧
    (repo.headCommit.isSome = true → repo.headTreeOk = true → repo.statusOk = true →
      sequenceItems repo.statusItems = Except.error () →
      get_status_summary repo proj base = Except.error GitError.statusIter) := by
  refine ⟨?_, ?_, ?_, ?_⟩
  · intro h; unfold count_lines_for_entry; rw [h]; rfl
  · intro h; unfold count_lines_for_entry; rw [h]; rfl
  · intro hc ht hs hi
    cases hcv : repo.headCommit with
    | none => rw [hcv] at hc; simp at hc
    | some hid =>
      cases hseq : sequenceItems repo.statusItems with
      | error e => rw [hseq] at hi; simp [Except.isOk, Except.toBool] at hi
      | ok items =>
        cases hr : repo.headRef with
        | none =>
          rw [get_status_summary_detached repo proj base hid items hcv ht hs hseq hr]; rfl
        | some branch =>
          rw [get_status_summary_branch repo proj base branch hid items hcv ht hs hseq hr]; rfl
  · intro hc ht hs hseq
    cases hcv : repo.headCommit with
    | none => rw [hcv] at hc; simp at hc
    | some hid =>
      unfold get_status_summary
      rw [hcv, ht, hs, hseq]
      rfl

theorem c7_witness :
    c7Repo.treeLookup "f" = none ∧
    count_lines_for_entry c7Repo "f" = diff_line_counts [] ((c7Repo.fsRead "f").getD []) ∧
    (get_status_summary c7Repo none none).isOk = true ∧
    get_status_summary c7ErrRepo none none = Except.error GitError.statusIter := by
  refine ⟨rfl, (c7_error_policy c7Repo none none "f").1 rfl, ?_, ?_⟩
  · exact (c7_error_policy c7Repo none none "f").2.2.1 rfl rfl rfl rfl
  · exact (c7_error_policy c7ErrRepo none none "f").2.2.2 rfl rfl rfl rfl

/-- C8 (code bug): whenever refs/remotes/origin/HEAD exists, getDefaultBranch
returns the literal name "HEAD" — the source shortens the own name of the
looked-up reference and strips "origin/", never resolving the symbolic
reference to the branch it points at, so the claimed resolved branch name
(e.g. "main") is never produced. -/
theorem c8_default_branch_bug (repo : RepoState)
    (h : (repo.findRef "refs/remotes/origin/HEAD").isSome = true) :
    get_default_branch repo = Except.ok (some "HEAD") := by
  unfold get_default_branch
  rw [if_pos h]
  rfl

theorem c8_witness :
    (c8Repo.findRef "refs/remotes/origin/HEAD").isSome = true ∧
    get_default_branch c8Repo = Except.ok (some "HEAD") := by
  have h : (c8Repo.findRef "refs/remotes/origin/HEAD").isSome = true := rfl
  exact ⟨h, c8_default_branch_bug c8Repo h⟩

/-- C1 (amended): for a repository whose HEAD is on a branch and whose
summary call succeeds, unpushedCommitCount is exactly the count described by
the claim — merge-base target chosen from the remote-tracking ref, else the
supplied base branch; walk from HEAD counting until the merge-base, excluded;
0 on any missing reference or merge-base — reduced modulo 2 ^ 32, because the
counter is a wrapping u32. -/
theorem c1_amended_unpushed (repo : RepoState) (proj : Option RepoState)
    (base : Option String) (branch : String) (hid : Oid) (items : List RawItem)
    (h1 : repo.headCommit = some hid) (h2 : repo.headTreeOk = true)
    (h3 : repo.statusOk = true) (h4 : sequenceItems repo.statusItems = Except.ok items)
    (h5 : repo.headRef = some branch) :
    (get_status_summary repo proj base).map (fun s => s.unpushed_commit_count) =
      Except.ok (spec_unpushed_count repo branch base hid % 2 ^ 32) := by
  rw [get_status_summary_branch repo proj base branch hid items h1 h2 h3 h4 h5]
  simp only [Except.map]
  rw [compute_unpushed_eq]

theorem c1_witness :
    (get_status_summary c1Repo none none).map (fun s => s.unpushed_commit_count) =
      Except.ok (spec_unpushed_count c1Repo "b" none 3 % 2 ^ 32) ∧
    spec_unpushed_count c1Repo "b" none 3 = 1 :=
  ⟨c1_amended_unpushed c1Repo none none "b" 3 [] rfl rfl rfl rfl rfl, rfl⟩

/-- C1 counterexample: a walk of 2 ^ 32 commits that never reaches the
found merge-base id.  The count of visited commits per the claim is 2 ^ 32, but the
returned unpushedCommitCount is 0 — the u32 counter wrapped. -/
theorem c1_counterexample :
    (get_status_summary c1BigRepo none none).map (fun s => s.unpushed_commit_count) =
      Except.ok 0 ∧
    spec_unpushed_count c1BigRepo "b" none 1 = 2 ^ 32 := by
  have hto : (Except.ok (1 : Oid) : Except Unit Oid).toOption = some 1 := rfl
  have hfm := filterMap_replicate_some (fun e : Except Unit Oid => e.toOption)
    (Except.ok 1) 1 hto (2 ^ 32)
  have hp : (fun id : Oid => decide (id ≠ (99 : Oid))) 1 = true := by decide
  have htw := takeWhile_replicate_true (fun id : Oid => decide (id ≠ (99 : Oid))) 1 hp (2 ^ 32)
  have hs : ("refs/remotes/origin/" ++ "b" : String) = "refs/remotes/origin/b" := rfl
  have hspec : spec_unpushed_count c1BigRepo "b" none 1 = 2 ^ 32 := by
    unfold spec_unpushed_count
    rw [hs]
    show spec_walk_count (List.replicate (2 ^ 32) (Except.ok 1)) 99 = 2 ^ 32
    unfold spec_walk_count
    rw [hfm, htw, List.length_replicate]
  refine ⟨?_, hspec⟩
  have hb := get_status_summary_branch c1BigRepo none none "b" 1 [] rfl rfl rfl rfl rfl
  rw [hb]
  simp only [Except.map]
  rw [compute_unpushed_eq, hspec]
  norm_num

/-- C2: with a base branch supplied and HEAD on a branch, the returned
isMergedIntoBase equals the description in the claim — true exactly when both
refs/heads tips resolve in the project repository handle, their merge-base
exists, and that merge-base differs from the branch tip; false on any
failure, including a failed project-repository open. -/
theorem c2_merged_matches_spec (repo : RepoState) (proj : Option RepoState) (b : String)
    (branch : String) (hid : Oid) (items : List RawItem)
    (h1 : repo.headCommit = some hid) (h2 : repo.headTreeOk = true)
    (h3 : repo.statusOk = true) (h4 : sequenceItems repo.statusItems = Except.ok items)
    (h5 : repo.headRef = some branch) :
    (get_status_summary repo proj (some b)).map (fun s => s.is_merged_into_base) =
      Except.ok (spec_is_merged proj b branch) := by
  rw [get_status_summary_branch repo proj (some b) branch hid items h1 h2 h3 h4 h5]
  simp only [Except.map]
  congr 1
  unfold compute_is_merged spec_is_merged
  cases proj with
  | none => rfl
  | some pr =>
    cases hb : pr.findRef ("refs/heads/" ++ b) with
    | none => simp [hb]
    | some pb =>
      cases pb with
      | none => simp [hb]
      | some baseId =>
        cases hbr : pr.findRef ("refs/heads/" ++ branch) with
        | none => simp [hb, hbr]
        | some pbr =>
          cases pbr with
          | none => simp [hb, hbr]
          | some branchId =>
            cases hmb : pr.mergeBase baseId branchId with
            | none => simp [hb, hbr, hmb]
            | some mb => simp [hb, hbr, hmb]

theorem c2_witness :
    (get_status_summary c2Repo (some c2Proj) (some "base")).map
        (fun s => s.is_merged_into_base) =
      Except.ok (spec_is_merged (some c2Proj) "base" "feat") ∧
    spec_is_merged (some c2Proj) "base" "feat" = true :=
  ⟨c2_merged_matches_spec c2Repo (some c2Proj) "base" "feat" 3 [] rfl rfl rfl rfl rfl, rfl⟩

theorem count_replicate_ten (k : Nat) : (List.replicate k (10 : Nat)).count 10 = k := by
  induction k with
  | zero => rfl
  | succ j ih => simp [List.replicate_succ, List.count_cons, ih]

/-- C3 (amended): countFileLines behaves exactly as claimed — 0 on empty, 0
on a null byte among the first min(length, 8192) bytes, else the newline
count plus the final-line adjustment — with that count reduced modulo 2 ^ 32,
because the counter is a wrapping u32. -/
theorem c3_amended_count (b : ByteBuf) :
    count_file_lines_bytes b = spec_count_file_lines b % 2 ^ 32 := by
  unfold count_file_lines_bytes spec_count_file_lines
  by_cases hempty : b = []
  · simp [hempty]
  · have htake : b.take (min b.length 8192) = b.take 8192 := by
      cases Nat.le_total b.length 8192 with
      | inl hle => rw [Nat.min_eq_left hle, List.take_of_length_le hle, List.take_length]
      | inr hge => rw [Nat.min_eq_right hge]
    have hbeq : ((b.take (min b.length 8192)).contains 0) = is_binary b := by
      unfold is_binary; rw [htake]
    rw [if_neg hempty, if_neg hempty, hbeq]
    by_cases hbin : is_binary b
    · simp [hbin]
    · rw [if_neg hbin, if_neg hbin]
      have hfold := foldl_count_ten b 0 (by norm_num)
      simp only [Nat.zero_add] at hfold
      have hsome : b.getLast?.isSome := List.getLast?_isSome.mpr hempty
      obtain ⟨l, hl⟩ := Option.isSome_iff_exists.mp hsome
      rw [hl]
      by_cases hl10 : l = 10
      · subst hl10; simp [hfold]
      · simp only [hfold]
        simp only [hl10, Option.some.injEq, if_neg hl10, if_false]
        simp only [wadd]
        omega

/-- C3 counterexample: a buffer of 2 ^ 32 newline bytes.  The value the claim predicts is
the newline count 2 ^ 32, but the function returns 0 — the u32 counter
wrapped. -/
theorem c3_counterexample :
    count_file_lines_bytes (List.replicate (2 ^ 32) 10) = 0 ∧
    spec_count_file_lines (List.replicate (2 ^ 32) 10) = 2 ^ 32 := by
  have hlen : (List.replicate (2 ^ 32) (10 : Nat)).length = 2 ^ 32 := List.length_replicate _ _
  have hne : (List.replicate (2 ^ 32) (10 : Nat)) ≠ [] := by
    intro h
    rw [h] at hlen
    simp at hlen
  have hcount : (List.replicate (2 ^ 32) (10 : Nat)).count 10 = 2 ^ 32 :=
    count_replicate_ten _
  have hlast : (List.replicate (2 ^ 32) (10 : Nat)).getLast? = some 10 := by
    have h32 : (2 : Nat) ^ 32 = (2 ^ 32 - 1) + 1 := by norm_num
    rw [h32]
    exact getLast_replicate_succ 10 _
  constructor
  · unfold count_file_lines_bytes
    rw [if_neg hne, if_neg (by rw [is_binary_replicate_ten]; exact Bool.false_ne_true)]
    have hfold := foldl_count_ten (List.replicate (2 ^ 32) 10) 0 (by norm_num)
    rw [hcount] at hfold
    simp only [hfold, hlast]
    norm_num
  · unfold spec_count_file_lines
    rw [if_neg hne]
    have htk : ((List.replicate (2 ^ 32) (10 : Nat)).take
        (min (List.replicate (2 ^ 32) (10 : Nat)).length 8192)).contains 0 = false := by
      rw [List.take_replicate]
      exact contains_replicate_ten _
    rw [if_neg (by rw [htk]; exact Bool.false_ne_true), hcount, hlast]
    simp

/-- C5 (amended): for every successful getDiffSummary call, total is the
pre-truncation non-excluded count reduced modulo 2 ^ 32 (the usize-to-u32
cast) and truncated compares max with the exact pre-truncation count; with
maxFiles 0 or absent nothing is truncated and files keeps every non-excluded
entry; with 0 < k < count the result keeps exactly k entries and truncated is
true; and whenever fewer than 2 ^ 32 entries survive exclusion the claimed
invariants total >= files.length and truncated == (max > 0 && total > max)
hold. -/
theorem c5_amended_truncation (repo : RepoState) (ex : Option (List String))
    (mx : Option Nat) (items : List RawItem) (r : DiffSummaryResult)
    (h1 : repo.statusOk = true) (h2 : sequenceItems repo.statusItems = Except.ok items)
    (h3 : get_diff_summary repo ex mx = Except.ok r) :
    r.total = (diff_kept_files items (ex.getD [])).length % 2 ^ 32 ∧
    r.truncated = (decide (0 < mx.getD 0) &&
      decide (mx.getD 0 < (diff_kept_files items (ex.getD [])).length)) ∧
    (mx.getD 0 = 0 → r.truncated = false ∧ r.files = diff_kept_files items (ex.getD [])) ∧
    (0 < mx.getD 0 → mx.getD 0 < (diff_kept_files items (ex.getD [])).length →
      r.files.length = mx.getD 0 ∧ r.truncated = true) ∧
    ((diff_kept_files items (ex.getD [])).length < 2 ^ 32 →
      r.files.length ≤ r.total ∧
      r.truncated = (decide (0 < mx.getD 0) && decide (mx.getD 0 < r.total))) := by
  have hval : get_diff_summary repo ex mx = Except.ok
      { files := if (decide (0 < mx.getD 0) &&
            decide (mx.getD 0 < (diff_kept_files items (ex.getD [])).length)) = true
          then (diff_kept_files items (ex.getD [])).take (mx.getD 0)
          else diff_kept_files items (ex.getD []),
        total := (diff_kept_files items (ex.getD [])).length % 2 ^ 32,
        truncated := decide (0 < mx.getD 0) &&
          decide (mx.getD 0 < (diff_kept_files items (ex.getD [])).length) } := by
    unfold get_diff_summary
    rw [h1, h2]
    simp
  rw [hval] at h3
  injection h3 with h3
  subst h3
  refine ⟨rfl, rfl, ?_, ?_, ?_⟩
  · intro h0
    simp [h0]
  · intro hk1 hk2
    have hcond : (decide (0 < mx.getD 0) &&
        decide (mx.getD 0 < (diff_kept_files items (ex.getD [])).length)) = true := by
      simp [hk1, hk2]
    constructor
    · show (if _ then (diff_kept_files items (ex.getD [])).take (mx.getD 0)
          else diff_kept_files items (ex.getD [])).length = mx.getD 0
      rw [if_pos hcond, List.length_take]
      exact Nat.min_eq_left (Nat.le_of_lt hk2)
    · exact hcond
  · intro hlt
    have htot : (diff_kept_files items (ex.getD [])).length % 2 ^ 32 =
        (diff_kept_files items (ex.getD [])).length := Nat.mod_eq_of_lt hlt
    constructor
    · show (if _ then (diff_kept_files items (ex.getD [])).take (mx.getD 0)
          else diff_kept_files items (ex.getD [])).length ≤
        (diff_kept_files items (ex.getD [])).length % 2 ^ 32
      rw [htot]
      by_cases hc : (decide (0 < mx.getD 0) &&
          decide (mx.getD 0 < (diff_kept_files items (ex.getD [])).length)) = true
      · rw [if_pos hc, List.length_take]
        exact Nat.min_le_right _ _
      · rw [if_neg hc]
    · show _ = (decide (0 < mx.getD 0) &&
        decide (mx.getD 0 < (diff_kept_files items (ex.getD [])).length % 2 ^ 32))
      rw [htot]

theorem c5_witness :
    c5Result.total = (diff_kept_files [RawItem.directoryContents "a",
      RawItem.directoryContents "b"] ((none : Option (List String)).getD [])).length % 2 ^ 32 ∧
    c5Result.truncated = (decide (0 < (some 1 : Option Nat).getD 0) &&
      decide ((some 1 : Option Nat).getD 0 < (diff_kept_files [RawItem.directoryContents "a",
        RawItem.directoryContents "b"] ((none : Option (List String)).getD [])).length)) ∧
    ((some 1 : Option Nat).getD 0 = 0 → c5Result.truncated = false ∧
      c5Result.files = diff_kept_files [RawItem.directoryContents "a",
        RawItem.directoryContents "b"] ((none : Option (List String)).getD [])) ∧
    (0 < (some 1 : Option Nat).getD 0 →
      (some 1 : Option Nat).getD 0 < (diff_kept_files [RawItem.directoryContents "a",
        RawItem.directoryContents "b"] ((none : Option (List String)).getD [])).length →
      c5Result.files.length = (some 1 : Option Nat).getD 0 ∧ c5Result.truncated = true) ∧
    ((diff_kept_files [RawItem.directoryContents "a",
        RawItem.directoryContents "b"] ((none : Option (List String)).getD [])).length < 2 ^ 32 →
      c5Result.files.length ≤ c5Result.total ∧
      c5Result.truncated = (decide (0 < (some 1 : Option Nat).getD 0) &&
        decide ((some 1 : Option Nat).getD 0 < c5Result.total))) :=
  c5_amended_truncation c5Repo none (some 1)
    [RawItem.directoryContents "a", RawItem.directoryContents "b"] c5Result rfl rfl rfl

theorem get_diff_summary_nomax (repo : RepoState) (items : List RawItem)
    (h1 : repo.statusOk = true) (h2 : sequenceItems repo.statusItems = Except.ok items) :
    get_diff_summary repo none none = Except.ok
      { files := diff_kept_files items [],
        total := (diff_kept_files items []).length % 2 ^ 32,
        truncated := false } := by
  unfold get_diff_summary
  rw [h1, h2]
  simp

/-- C5 counterexample: a stream of 2 ^ 32 untracked entries with no exclusion
and maxFiles absent.  The files list keeps all 2 ^ 32 entries but the u32
total wraps to 0, so the claimed invariant total >= files.length fails. -/
theorem c5_counterexample :
    get_diff_summary c5BigRepo none none = Except.ok
      { files := List.replicate (2 ^ 32) { path := "a", status := "added", staged := false },
        total := 0, truncated := false } ∧
    0 < (List.replicate (2 ^ 32)
      ({ path := "a", status := "added", staged := false } : FileDiffSummaryItem)).length := by
  have hseq := sequenceItems_replicate_ok (RawItem.directoryContents "a") (2 ^ 32)
  have hkept : diff_kept_files (List.replicate (2 ^ 32) (RawItem.directoryContents "a")) [] =
      List.replicate (2 ^ 32)
        ({ path := "a", status := "added", staged := false } : FileDiffSummaryItem) := by
    unfold diff_kept_files
    refine filterMap_replicate_some _ _ _ ?_ (2 ^ 32)
    rfl
  constructor
  · rw [get_diff_summary_nomax c5BigRepo _ rfl hseq, hkept, List.length_replicate]
    norm_num
  · rw [List.length_replicate]
    norm_num

/-- C9 (amended): the line-tally accumulators of getStatusSummary are never
negative (they are Nat-valued) but they wrap modulo 2 ^ 32 rather than
saturating: each total equals the exact sum of the per-change and per-file
contributions reduced modulo 2 ^ 32. -/
theorem c9_amended_wrapping (repo : RepoState) (paths : List String) (la : Nat)
    (h : la < 2 ^ 32) :
    tally_modified repo paths =
      ((paths.map fun p => (count_lines_for_entry repo p).1).sum % 2 ^ 32,
       (paths.map fun p => (count_lines_for_entry repo p).2).sum % 2 ^ 32) ∧
    tally_untracked repo la paths =
      (la + ((paths.take MAX_UNTRACKED_TO_COUNT).map fun p =>
        if untracked_gate repo p then count_file_lines repo p else 0).sum) % 2 ^ 32 := by
  constructor
  · have hp := foldl_wadd_pair (fun p => count_lines_for_entry repo p) paths 0 0
      (by norm_num) (by norm_num)
    simpa [tally_modified] using hp
  · exact foldl_wadd_gated (untracked_gate repo) (count_file_lines repo)
      (paths.take MAX_UNTRACKED_TO_COUNT) la h

theorem c9_witness :
    (0 : Nat) < 2 ^ 32 ∧
    (tally_modified baseRepo ["f"] =
      (((["f"] : List String).map fun p => (count_lines_for_entry baseRepo p).1).sum % 2 ^ 32,
       ((["f"] : List String).map fun p => (count_lines_for_entry baseRepo p).2).sum % 2 ^ 32) ∧
     tally_untracked baseRepo 0 ["f"] =
      (0 + ((((["f"] : List String)).take MAX_UNTRACKED_TO_COUNT).map fun p =>
        if untracked_gate baseRepo p then count_file_lines baseRepo p else 0).sum) % 2 ^ 32) :=
  ⟨by norm_num, c9_amended_wrapping baseRepo ["f"] 0 (by norm_num)⟩

/-- C9 counterexample: two tracked modifications each contributing 2 ^ 31
added lines.  The saturating total the claim predicts is 2 ^ 32 - 1, but the returned
lines_added is 0 — the u32 accumulator wrapped at 2 ^ 32. -/
theorem c9_counterexample :
    get_status_summary c9Repo none none = Except.ok
      { dirty_file_count := 2, unpushed_commit_count := 0, has_remote_branch := false,
        is_merged_into_base := false, lines_added := 0, lines_deleted := 0 } ∧
    min ((2 : Nat) ^ 31 + 2 ^ 31) (2 ^ 32 - 1) ≠ 0 := by
  have hcl : ∀ p : String, count_lines_for_entry c9Repo p = (2 ^ 31, 0) := by
    intro p
    show diff_line_counts [] (List.replicate (2 ^ 31) 10) = (2 ^ 31, 0)
    unfold diff_line_counts
    rw [show is_binary ([] : ByteBuf) = false from rfl, is_binary_replicate_ten]
    rw [if_neg (by norm_num)]
    rw [show splitLines ([] : ByteBuf) = [] from rfl, splitLines_replicate_ten]
    have h31 : (2 : Nat) ^ 31 = (2 ^ 31 - 1) + 1 := by norm_num
    rw [h31, List.replicate_succ, diffChanges_nil_cons, List.length_replicate]
    unfold lineCounterRun
    simp only [List.foldl_cons, List.foldl_nil, wadd]
    norm_num
  constructor
  · rw [get_status_summary_detached c9Repo none none 1
      [RawItem.modification "f" EntryStatusKind.modification,
       RawItem.modification "g" EntryStatusKind.modification] rfl rfl rfl rfl rfl]
    have hmp : modified_paths
        [RawItem.modification "f" EntryStatusKind.modification,
         RawItem.modification "g" EntryStatusKind.modification] = ["f", "g"] := rfl
    have hup : untracked_paths
        [RawItem.modification "f" EntryStatusKind.modification,
         RawItem.modification "g" EntryStatusKind.modification] = [] := rfl
    rw [hmp, hup]
    have ht : tally_modified c9Repo ["f", "g"] = (0, 0) := by
      unfold tally_modified
      simp only [List.foldl_cons, List.foldl_nil, hcl]
      simp only [wadd]
      norm_num
    rw [ht]
    have hu : tally_untracked c9Repo 0 [] = 0 := rfl
    rw [hu]
    norm_num
  · norm_num
